import Mathlib

/-!
Verification of the drizzle-benchmarks Rust query service.

The relational rows are embedded as Lean structures following
`src/rust/src/schema.rs` (diesel `table!` declarations) and the row
structs of `src/rust/src/queries.rs`.  SQL `Float8` columns are modelled
by exact rationals (`ℚ`); dates by `Int`; `i32`/`i64` ids and counts by
`Int`.  A database state is a record of row lists, and each query
`p1` .. `p13` of `queries.rs` is a pure function over it, translating
the diesel query builder combinators (filter, joins, group-by
aggregates, order-by/limit/offset, `first().optional()`).
-/

/-- Table `customers` of schema.rs. -/
structure Customer where
  id : Int
  company_name : String
  contact_name : String
  contact_title : String
  address : String
  city : String
  postal_code : Option String
  region : Option String
  country : String
  phone : String
  fax : Option String
deriving Repr, DecidableEq

/-- Table `employees` of schema.rs (recipient_id is a nullable self reference). -/
structure Employee where
  id : Int
  last_name : String
  first_name : Option String
  title : String
  title_of_courtesy : String
  birth_date : Int
  hire_date : Int
  address : String
  city : String
  postal_code : String
  country : String
  home_phone : String
  extension : Int
  notes : String
  recipient_id : Option Int
deriving Repr, DecidableEq

/-- Table `suppliers` of schema.rs. -/
structure Supplier where
  id : Int
  company_name : String
  contact_name : String
  contact_title : String
  address : String
  city : String
  region : Option String
  postal_code : String
  country : String
  phone : String
deriving Repr, DecidableEq

/-- Table `products` of schema.rs. -/
structure Product where
  id : Int
  name : String
  qt_per_unit : String
  unit_price : ℚ
  units_in_stock : Int
  units_on_order : Int
  reorder_level : Int
  discontinued : Int
  supplier_id : Int
deriving Repr, DecidableEq

/-- Table `orders` of schema.rs. -/
structure Order where
  id : Int
  order_date : Int
  required_date : Int
  shipped_date : Option Int
  ship_via : Int
  freight : ℚ
  ship_name : String
  ship_city : String
  ship_region : Option String
  ship_postal_code : Option String
  ship_country : String
  customer_id : Int
  employee_id : Int
deriving Repr, DecidableEq

/-- Table `order_details` of schema.rs (column order as in the diesel `table!`). -/
structure OrderDetailRow where
  unit_price : ℚ
  quantity : Int
  discount : ℚ
  order_id : Int
  product_id : Int
  id : Int
deriving Repr, DecidableEq

/-- The backing store: one list of rows per table. -/
structure Db where
  customers : List Customer
  employees : List Employee
  suppliers : List Supplier
  products : List Product
  orders : List Order
  order_details : List OrderDetailRow
deriving Repr, DecidableEq

/-- Diesel runtime errors surfaced by queries (`QueryResult` = `Result<_, Error>`).
`NotFound` is what `first` returns on an empty result set; `QueryError`
stands for any backing-store execution failure. -/
inductive DieselError where
  | NotFound : DieselError
  | QueryError : DieselError
deriving Repr, DecidableEq

/-- Diesel `.first(conn)`: the first row of the result set, or `Err(NotFound)` when
the result set is empty. -/
def firstRow {α : Type} (rows : List α) : Except DieselError α :=
  match rows.head? with
  | some r => .ok r
  | none => .error .NotFound

/-- Diesel `.optional()`: converts `Err(NotFound)` into `Ok(None)`, wraps a present
row in `Some`, and lets every other error through. -/
def Diesel.optional {α : Type} (r : Except DieselError α) : Except DieselError (Option α) :=
  match r with
  | .ok a => .ok (some a)
  | .error .NotFound => .ok none
  | .error e => .error e

/-- SQL `ORDER BY key ASC` over a list of rows. -/
def orderByAsc {α : Type} (key : α → Int) (l : List α) : List α :=
  List.insertionSort (fun a b => key a ≤ key b) l

/-- SQL `LIMIT limit_ OFFSET offset_` applied after ordering (diesel `.limit(..).offset(..)`). -/
def limitOffset {α : Type} (limit_ offset_ : Int) (l : List α) : List α :=
  (l.drop offset_.toNat).take limit_.toNat

/-- p1: customers ordered by id asc with limit/offset (`queries.rs` lines 58-69). -/
def p1 (db : Db) (limit_ offset_ : Int) : List Customer :=
  limitOffset limit_ offset_ (orderByAsc (fun c => c.id) db.customers)

/-- p2: first customer with the given id, `first().optional()`
(`queries.rs` lines 72-78). -/
def p2 (db : Db) (id_ : Int) : Except DieselError (Option Customer) :=
  Diesel.optional (firstRow (db.customers.filter (fun c => c.id == id_)))

/-- p4: employees ordered by id asc with limit/offset. -/
def p4 (db : Db) (limit_ offset_ : Int) : List Employee :=
  limitOffset limit_ offset_ (orderByAsc (fun e => e.id) db.employees)

/-- p6: suppliers ordered by id asc with limit/offset. -/
def p6 (db : Db) (limit_ offset_ : Int) : List Supplier :=
  limitOffset limit_ offset_ (orderByAsc (fun s => s.id) db.suppliers)

/-- p7: first supplier with the given id. -/
def p7 (db : Db) (id_ : Int) : Except DieselError (Option Supplier) :=
  Diesel.optional (firstRow (db.suppliers.filter (fun s => s.id == id_)))

/-- p8: products ordered by id asc with limit/offset. -/
def p8 (db : Db) (limit_ offset_ : Int) : List Product :=
  limitOffset limit_ offset_ (orderByAsc (fun p => p.id) db.products)

/-- Row shape of p5 (`EmployeeWithRecipient` in queries.rs): the employee's own
columns followed by the recipient's columns, all nullable because of the
LEFT JOIN. -/
structure EmployeeWithRecipient where
  id : Int
  last_name : String
  first_name : Option String
  title : String
  title_of_courtesy : String
  birth_date : Int
  hire_date : Int
  address : String
  city : String
  postal_code : String
  country : String
  home_phone : String
  extension : Int
  notes : String
  recipient_id : Option Int
  recipient_employee_id : Option Int
  recipient_last_name : Option String
  recipient_first_name : Option String
  recipient_title : Option String
  recipient_title_of_courtesy : Option String
  recipient_birth_date : Option Int
  recipient_hire_date : Option Int
  recipient_address : Option String
  recipient_city : Option String
  recipient_postal_code : Option String
  recipient_country : Option String
  recipient_home_phone : Option String
  recipient_extension : Option Int
  recipient_notes : Option String
  recipient_recipient_id : Option Int
deriving Repr, DecidableEq

/-- The select list of p5: the employee's columns plus the aliased recipient's
columns made nullable (`recipient.field(..).nullable()`); `r?` is the matched
recipient row of the LEFT JOIN, absent when no recipient matched. -/
def mkEmployeeWithRecipient (e : Employee) (r? : Option Employee) : EmployeeWithRecipient :=
  { id := e.id
    last_name := e.last_name
    first_name := e.first_name
    title := e.title
    title_of_courtesy := e.title_of_courtesy
    birth_date := e.birth_date
    hire_date := e.hire_date
    address := e.address
    city := e.city
    postal_code := e.postal_code
    country := e.country
    home_phone := e.home_phone
    extension := e.extension
    notes := e.notes
    recipient_id := e.recipient_id
    recipient_employee_id := r?.map (fun r => r.id)
    recipient_last_name := r?.map (fun r => r.last_name)
    recipient_first_name := r?.bind (fun r => r.first_name)
    recipient_title := r?.map (fun r => r.title)
    recipient_title_of_courtesy := r?.map (fun r => r.title_of_courtesy)
    recipient_birth_date := r?.map (fun r => r.birth_date)
    recipient_hire_date := r?.map (fun r => r.hire_date)
    recipient_address := r?.map (fun r => r.address)
    recipient_city := r?.map (fun r => r.city)
    recipient_postal_code := r?.map (fun r => r.postal_code)
    recipient_country := r?.map (fun r => r.country)
    recipient_home_phone := r?.map (fun r => r.home_phone)
    recipient_extension := r?.map (fun r => r.extension)
    recipient_notes := r?.map (fun r => r.notes)
    recipient_recipient_id := r?.bind (fun r => r.recipient_id) }

/-- SQL LEFT JOIN of one left row against the right rows matching `on`: one
row per match, or a single row with an absent right side when nothing
matches. -/
def leftJoinRow {α β : Type} (a : α) (rs : List β) (cond : α → β → Bool) : List (α × Option β) :=
  match rs.filter (cond a) with
  | [] => [(a, none)]
  | ms => ms.map (fun b => (a, some b))

/-- SQL LEFT JOIN of two row lists. -/
def leftJoin {α β : Type} (ls : List α) (rs : List β) (cond : α → β → Bool) :
    List (α × Option β) :=
  ls.flatMap (fun a => leftJoinRow a rs cond)

/-- SQL INNER JOIN of two row lists. -/
def innerJoin {α β : Type} (ls : List α) (rs : List β) (cond : α → β → Bool) :
    List (α × β) :=
  ls.flatMap (fun a => (rs.filter (cond a)).map (fun b => (a, b)))

/-- p5: employees left-joined with the `recipient` alias of the same table on
`employees.recipient_id = recipient.id`, filtered by id, `first().optional()`
(`queries.rs` lines 159-205).  The join condition compares the nullable
`recipient_id` with the recipient's id made nullable; a null `recipient_id`
matches nothing. -/
def p5 (db : Db) (id_ : Int) : Except DieselError (Option EmployeeWithRecipient) :=
  Diesel.optional (firstRow
    (((leftJoin db.employees db.employees
        (fun e r => e.recipient_id == some r.id)).filter
      (fun er => er.1.id == id_)).map
      (fun er => mkEmployeeWithRecipient er.1 er.2)))

/-- Row shape of p9 (`ProductWithSupplier` in queries.rs). -/
structure ProductWithSupplier where
  id : Int
  name : String
  qt_per_unit : String
  unit_price : ℚ
  units_in_stock : Int
  units_on_order : Int
  reorder_level : Int
  discontinued : Int
  supplier_id : Int
  supplier_supplier_id : Int
  supplier_company_name : String
  supplier_contact_name : String
  supplier_contact_title : String
  supplier_address : String
  supplier_city : String
  supplier_region : Option String
  supplier_postal_code : String
  supplier_country : String
  supplier_phone : String
deriving Repr, DecidableEq

/-- The select list of p9: product columns then supplier columns. -/
def mkProductWithSupplier (p : Product) (s : Supplier) : ProductWithSupplier :=
  { id := p.id
    name := p.name
    qt_per_unit := p.qt_per_unit
    unit_price := p.unit_price
    units_in_stock := p.units_in_stock
    units_on_order := p.units_on_order
    reorder_level := p.reorder_level
    discontinued := p.discontinued
    supplier_id := p.supplier_id
    supplier_supplier_id := s.id
    supplier_company_name := s.company_name
    supplier_contact_name := s.contact_name
    supplier_contact_title := s.contact_title
    supplier_address := s.address
    supplier_city := s.city
    supplier_region := s.region
    supplier_postal_code := s.postal_code
    supplier_country := s.country
    supplier_phone := s.phone }

/-- p9: products inner-joined with suppliers on
`products.supplier_id = suppliers.id` (the `joinable!` key of schema.rs),
filtered by product id, `first().optional()` (`queries.rs` lines 269-300). -/
def p9 (db : Db) (id_ : Int) : Except DieselError (Option ProductWithSupplier) :=
  Diesel.optional (firstRow
    (((innerJoin db.products db.suppliers
        (fun p s => s.id == p.supplier_id)).filter
      (fun ps => ps.1.id == id_)).map
      (fun ps => mkProductWithSupplier ps.1 ps.2)))

/-- Row shape of p11/p12 (`P11Row` in queries.rs). -/
structure P11Row where
  id : Int
  shipped_date : Option Int
  ship_name : String
  ship_city : String
  ship_country : String
  products_count : Int
  quantity_sum : Option Int
  total_price : Option ℚ
deriving Repr, DecidableEq

/-- SQL `COUNT(expr)` over the rows of one group: the number of non-null
values of `expr`. -/
def sqlCount {α : Type} (xs : List (Option α)) : Int :=
  ((xs.filterMap id).length : Int)

/-- SQL `SUM(expr)` over the rows of one group: null when no non-null value
exists, otherwise the sum of the non-null values. -/
def sqlSum {α : Type} [AddCommMonoid α] (xs : List (Option α)) : Option α :=
  match xs.filterMap id with
  | [] => none
  | ys => some ys.sum

/-- The rows of the group of one order under
`orders LEFT JOIN order_details ON order_details.order_id = orders.id`
grouped by `orders.id`: the matched detail rows, or a single all-null detail
when the order has none.  GROUP BY is on the orders primary key, so each
order row forms its own group. -/
def orderDetailGroup (db : Db) (o : Order) : List (Option OrderDetailRow) :=
  (leftJoinRow o db.order_details (fun o d => d.order_id == o.id)).map (fun od => od.2)

/-- The aggregate select list shared by p11 and p12:
`count(product_id.nullable())`, `sum(quantity.nullable())` and
`sum(quantity::float8 * unit_price)` over the order's group, next to the
order's plain columns (`queries.rs` lines 40-49 and 343-352). -/
def aggRow (db : Db) (o : Order) : P11Row :=
  let rows := orderDetailGroup db o
  { id := o.id
    shipped_date := o.shipped_date
    ship_name := o.ship_name
    ship_city := o.ship_city
    ship_country := o.ship_country
    products_count := sqlCount (rows.map (fun r => r.map (fun d => d.product_id)))
    quantity_sum := sqlSum (rows.map (fun r => r.map (fun d => d.quantity)))
    total_price := sqlSum (rows.map (fun r => r.map (fun d => (d.quantity : ℚ) * d.unit_price))) }

/-- p11: the per-order aggregates for all orders, ordered by id asc with
limit/offset (`queries.rs` lines 24-55). -/
def p11 (db : Db) (limit_ offset_ : Int) : List P11Row :=
  limitOffset limit_ offset_ ((orderByAsc (fun o => o.id) db.orders).map (aggRow db))

/-- p12: the same aggregate for the single order with the given id,
`first().optional()` (`queries.rs` lines 330-356). -/
def p12 (db : Db) (id_ : Int) : Except DieselError (Option P11Row) :=
  Diesel.optional (firstRow
    ((db.orders.filter (fun o => o.id == id_)).map (aggRow db)))

/-- Row shape of the p13 details (`OrderDetail` in queries.rs): order_detail
columns then the inner-joined product's columns. -/
structure OrderDetailWithProduct where
  unit_price : ℚ
  quantity : Int
  discount : ℚ
  order_id : Int
  product_id : Int
  id : Int
  product_product_id : Int
  product_name : String
  product_qt_per_unit : String
  product_unit_price : ℚ
  product_units_in_stock : Int
  product_units_on_order : Int
  product_reorder_level : Int
  product_discontinued : Int
  product_supplier_id : Int
deriving Repr, DecidableEq

/-- The select list of the p13 details query. -/
def mkOrderDetailWithProduct (d : OrderDetailRow) (p : Product) : OrderDetailWithProduct :=
  { unit_price := d.unit_price
    quantity := d.quantity
    discount := d.discount
    order_id := d.order_id
    product_id := d.product_id
    id := d.id
    product_product_id := p.id
    product_name := p.name
    product_qt_per_unit := p.qt_per_unit
    product_unit_price := p.unit_price
    product_units_in_stock := p.units_in_stock
    product_units_on_order := p.units_on_order
    product_reorder_level := p.reorder_level
    product_discontinued := p.discontinued
    product_supplier_id := p.supplier_id }

/-- The second query of p13: order_details inner-joined with products on
`order_details.product_id = products.id` (the `joinable!` key), filtered by
order id (`queries.rs` lines 414-435). -/
def p13Details (db : Db) (id_ : Int) : List OrderDetailWithProduct :=
  ((innerJoin db.order_details db.products
      (fun d p => p.id == d.product_id)).filter
    (fun dp => dp.1.order_id == id_)).map
    (fun dp => mkOrderDetailWithProduct dp.1 dp.2)

/-- Result shape of p13 (`OrderWithDetailsAndProducts` in queries.rs). -/
structure OrderWithDetailsAndProducts where
  id : Int
  order_date : Int
  required_date : Int
  shipped_date : Option Int
  ship_via : Int
  freight : ℚ
  ship_name : String
  ship_city : String
  ship_region : Option String
  ship_postal_code : Option String
  ship_country : String
  customer_id : Int
  employee_id : Int
  details : List OrderDetailWithProduct
deriving Repr, DecidableEq

/-- The record p13 assembles from the fetched order and its details. -/
def mkOrderWithDetailsAndProducts (o : Order) (ds : List OrderDetailWithProduct) :
    OrderWithDetailsAndProducts :=
  { id := o.id
    order_date := o.order_date
    required_date := o.required_date
    shipped_date := o.shipped_date
    ship_via := o.ship_via
    freight := o.freight
    ship_name := o.ship_name
    ship_city := o.ship_city
    ship_region := o.ship_region
    ship_postal_code := o.ship_postal_code
    ship_country := o.ship_country
    customer_id := o.customer_id
    employee_id := o.employee_id
    details := ds }

/-- The statements p13 can issue against the store, recorded as a trace. -/
inductive DbQuery where
  | fetchOrder : Int → DbQuery
  | fetchDetails : Int → DbQuery
deriving Repr, DecidableEq

/-- p13: fetch the order by id (`first().optional()?`); on `None` return
`Ok(None)` at once, otherwise run the details+products query and embed its
rows (`queries.rs` lines 397-453).  The second component records which
queries were issued, in order. -/
def p13 (db : Db) (id_ : Int) :
    Except DieselError (Option OrderWithDetailsAndProducts) × List DbQuery :=
  match Diesel.optional (firstRow (db.orders.filter (fun o => o.id == id_))) with
  | .error e => (.error e, [DbQuery.fetchOrder id_])
  | .ok none => (.ok none, [DbQuery.fetchOrder id_])
  | .ok (some o) =>
      (.ok (some (mkOrderWithDetailsAndProducts o (p13Details db id_))),
       [DbQuery.fetchOrder id_, DbQuery.fetchDetails id_])

/-- The pool lifecycle settings a bb8 `Pool::builder()` chain passes
explicitly; a field is `none` when the construction site never calls the
corresponding setter, leaving the library default in force.  Durations in
milliseconds. -/
structure PoolBuilderConfig where
  max_size : Option Nat
  min_idle : Option Nat
  connection_timeout_ms : Option Nat
  idle_timeout_ms : Option Nat
  max_lifetime_ms : Option Nat
deriving Repr, DecidableEq

/-- Initial `Pool::builder()` state: no setter called yet. -/
def poolBuilder : PoolBuilderConfig :=
  { max_size := none, min_idle := none, connection_timeout_ms := none,
    idle_timeout_ms := none, max_lifetime_ms := none }

def PoolBuilderConfig.with_max_size (c : PoolBuilderConfig) (n : Nat) : PoolBuilderConfig :=
  { c with max_size := some n }

def PoolBuilderConfig.with_min_idle (c : PoolBuilderConfig) (n : Nat) : PoolBuilderConfig :=
  { c with min_idle := some n }

def PoolBuilderConfig.with_connection_timeout (c : PoolBuilderConfig) (ms : Nat) :
    PoolBuilderConfig :=
  { c with connection_timeout_ms := some ms }

def PoolBuilderConfig.with_idle_timeout (c : PoolBuilderConfig) (ms : Nat) :
    PoolBuilderConfig :=
  { c with idle_timeout_ms := some ms }

def PoolBuilderConfig.with_max_lifetime (c : PoolBuilderConfig) (ms : Nat) :
    PoolBuilderConfig :=
  { c with max_lifetime_ms := some ms }

/-- The builder chain of `establish_async_pool` (`lib.rs` lines 17-29):
`Pool::builder().max_size(128).min_idle(16)
.connection_timeout(Duration::from_secs(5))`. -/
def establish_async_pool_config : PoolBuilderConfig :=
  ((poolBuilder.with_max_size 128).with_min_idle 16).with_connection_timeout 5000

/-- The property claimed of the construction site: every one of the five
lifecycle parameters is explicitly configured. -/
def configuresAllFive (c : PoolBuilderConfig) : Prop :=
  c.max_size.isSome ∧ c.min_idle.isSome ∧ c.connection_timeout_ms.isSome ∧
    c.idle_timeout_ms.isSome ∧ c.max_lifetime_ms.isSome

/-- The externally visible actions of one `stats_handler` run (`main.rs`
lines 41-70): CPU refreshes, the settle sleep, and the final reading of the
per-core usages. -/
inductive StatsAction where
  | refreshCpu : StatsAction
  | sleepMs : Nat → StatsAction
  | readCpus : StatsAction
deriving Repr, DecidableEq

/-- The check-and-set on `cpu_warmed_up` performed under its mutex
(`main.rs` lines 42-50), as one atomic step: returns `needs_warmup` and the
new flag value.  The flag is set exactly when it was unset, and is true
afterwards in every case. -/
def stats_check_warmup (warmed : Bool) : Bool × Bool :=
  if !warmed then (true, true) else (false, warmed)

/-- The actions one `stats_handler` call performs after the check-and-set:
a warm-up caller refreshes, sleeps 200 ms, refreshes again and reads; any
other caller refreshes and reads immediately. -/
def stats_actions (needs_warmup : Bool) : List StatsAction :=
  (if needs_warmup then [StatsAction.refreshCpu, StatsAction.sleepMs 200] else [])
    ++ [StatsAction.refreshCpu, StatsAction.readCpus]

/-- Running `n` consecutive handler calls (any serialization of concurrent callers,
since the check-and-set is atomic): the list of `needs_warmup` outcomes the
callers observe, threading the flag. -/
def runStats : Nat → Bool → List Bool
  | 0, _ => []
  | n + 1, warmed =>
      let r := stats_check_warmup warmed
      r.1 :: runStats n r.2

/-- Example customers (ids 1, 2, 3). -/
def exCustomer1 : Customer :=
  { id := 1, company_name := "acme", contact_name := "", contact_title := "",
    address := "", city := "", postal_code := none, region := none,
    country := "", phone := "", fax := none }

def exCustomer2 : Customer :=
  { exCustomer1 with id := 2, company_name := "binco" }

def exCustomer3 : Customer :=
  { exCustomer1 with id := 3, company_name := "carco" }

/-- Example employees: id 1 has no recipient, id 2 has employee 1 as
recipient. -/
def exEmployee1 : Employee :=
  { id := 1, last_name := "li", first_name := some "a", title := "", title_of_courtesy := "",
    birth_date := 100, hire_date := 200, address := "", city := "", postal_code := "",
    country := "", home_phone := "", extension := 11, notes := "", recipient_id := none }

def exEmployee2 : Employee :=
  { exEmployee1 with id := 2, last_name := "wu", extension := 22, recipient_id := some 1 }

/-- Example supplier (id 1). -/
def exSupplier1 : Supplier :=
  { id := 1, company_name := "sup", contact_name := "", contact_title := "",
    address := "", city := "", region := none, postal_code := "", country := "",
    phone := "" }

/-- Example products: id 1 references supplier 1; id 2 references the missing
supplier 99. -/
def exProduct1 : Product :=
  { id := 1, name := "tea", qt_per_unit := "", unit_price := 10, units_in_stock := 0,
    units_on_order := 0, reorder_level := 0, discontinued := 0, supplier_id := 1 }

def exProduct2 : Product :=
  { exProduct1 with id := 2, name := "mug", unit_price := 5, supplier_id := 99 }

/-- Example orders: order 1 has two details; order 2 has one detail whose
product is missing. -/
def exOrder1 : Order :=
  { id := 1, order_date := 10, required_date := 20, shipped_date := none,
    ship_via := 1, freight := 0, ship_name := "n", ship_city := "c",
    ship_region := none, ship_postal_code := none, ship_country := "x",
    customer_id := 1, employee_id := 1 }

def exOrder2 : Order :=
  { exOrder1 with id := 2, ship_name := "m" }

/-- Example order 3 with no details at all. -/
def exOrder3 : Order :=
  { exOrder1 with id := 3 }

/-- Details of order 1: qty 2 at unit price 10, qty 1 at unit price 5 (the
worked example of the spec). -/
def exDetail1 : OrderDetailRow :=
  { unit_price := 10, quantity := 2, discount := 0, order_id := 1, product_id := 1, id := 1 }

def exDetail2 : OrderDetailRow :=
  { unit_price := 5, quantity := 1, discount := 0, order_id := 1, product_id := 2, id := 2 }

/-- Detail of order 2, referencing the nonexistent product 99. -/
def exDetail3 : OrderDetailRow :=
  { unit_price := 7, quantity := 3, discount := 0, order_id := 2, product_id := 99, id := 3 }

/-- The example database used by the concrete witnesses. -/
def exDb : Db :=
  { customers := [exCustomer1, exCustomer2, exCustomer3]
    employees := [exEmployee1, exEmployee2]
    suppliers := [exSupplier1]
    products := [exProduct1, exProduct2]
    orders := [exOrder1, exOrder2, exOrder3]
    order_details := [exDetail1, exDetail2, exDetail3] }

/-! ### Helper lemmas about the SQL combinators -/

theorem filter_key_eq_of_nodup {α : Type} (key : α → Int) :
    ∀ (l : List α) (a : α) (k : Int), (l.map key).Nodup → a ∈ l → key a = k →
      l.filter (fun x => key x == k) = [a]
  | [], a, _, _, ha, _ => absurd ha (List.not_mem_nil a)
  | b :: t, a, k, hnd, ha, hk => by
    rw [List.map_cons, List.nodup_cons] at hnd
    rcases List.mem_cons.mp ha with h | h
    · subst h
      have ht : t.filter (fun x => key x == k) = [] := by
        rw [List.filter_eq_nil_iff]
        intro x hx hkey
        refine hnd.1 ?_
        rw [hk, ← beq_iff_eq.mp hkey]
        exact List.mem_map_of_mem key hx
      rw [List.filter_cons_of_pos (by simp [hk]), ht]
    · have hb : (key a == k) = true := by simp [hk]
      have hne : (key b == k) = false := by
        rw [beq_eq_false_iff_ne]
        intro hkey
        refine hnd.1 ?_
        rw [hkey, ← hk]
        exact List.mem_map_of_mem key h
      rw [List.filter_cons_of_neg (by simp [hne])]
      exact filter_key_eq_of_nodup key t a k hnd.2 h hk

theorem flatMap_if_key {α β : Type} (key : α → Int) :
    ∀ (l : List α) (a : α) (k : Int) (g : α → List β),
      (l.map key).Nodup → a ∈ l → key a = k →
      l.flatMap (fun x => if key x == k then g x else []) = g a
  | [], a, _, _, _, ha, _ => absurd ha (List.not_mem_nil a)
  | b :: t, a, k, g, hnd, ha, hk => by
    rw [List.map_cons, List.nodup_cons] at hnd
    rw [List.flatMap_cons]
    rcases List.mem_cons.mp ha with h | h
    · subst h
      have ht : t.flatMap (fun x => if (key x == k) = true then g x else []) = [] := by
        rw [List.flatMap_eq_nil_iff]
        intro x hx
        have hne : (key x == k) = false := by
          rw [beq_eq_false_iff_ne]
          intro hkey
          refine hnd.1 ?_
          rw [hk, ← hkey]
          exact List.mem_map_of_mem key hx
        simp [hne]
      rw [if_pos (by simp [hk]), ht, List.append_nil]
    · have hne : (key b == k) = false := by
        rw [beq_eq_false_iff_ne]
        intro hkey
        refine hnd.1 ?_
        rw [hkey, ← hk]
        exact List.mem_map_of_mem key h
      rw [if_neg (by simp [hne]), List.nil_append]
      exact flatMap_if_key key t a k g hnd.2 h hk

theorem filter_fst_map_pair {α β γ : Type} (a : α) (l : List β) (q : α → Bool) :
    ∀ (f : β → α × γ), (∀ b, (f b).1 = a) →
      (l.map f).filter (fun ab => q ab.1) = if q a then l.map f else [] := by
  intro f hf
  rw [List.filter_map]
  cases hq : q a
  · rw [if_neg (by simp [hq])]
    have h0 : l.filter ((fun ab => q ab.1) ∘ f) = [] := by
      rw [List.filter_eq_nil_iff]
      intro b _
      show ¬q (f b).1 = true
      rw [hf b, hq]
      simp
    rw [h0, List.map_nil]
  · rw [if_pos rfl]
    have h1 : l.filter ((fun ab => q ab.1) ∘ f) = l := by
      rw [List.filter_eq_self]
      intro b _
      show q (f b).1 = true
      rw [hf b, hq]
    rw [h1]

theorem filter_fst_leftJoinRow {α β : Type} (a : α) (rs : List β) (cond : α → β → Bool)
    (q : α → Bool) :
    (leftJoinRow a rs cond).filter (fun ab => q ab.1) =
      if q a then leftJoinRow a rs cond else [] := by
  unfold leftJoinRow
  cases hm : rs.filter (cond a) with
  | nil =>
      cases hq : q a
      · rw [if_neg (by simp [hq])]; simp [hq]
      · rw [if_pos rfl]; simp [hq]
  | cons b t =>
      exact filter_fst_map_pair a (b :: t) q (fun y => (a, some y)) (fun _ => rfl)

theorem leftJoin_filter_fst_eq {α β : Type} (key : α → Int) (ls : List α) (rs : List β)
    (cond : α → β → Bool) (a : α) (k : Int)
    (hnd : (ls.map key).Nodup) (ha : a ∈ ls) (hk : key a = k) :
    (leftJoin ls rs cond).filter (fun ab => key ab.1 == k) = leftJoinRow a rs cond := by
  unfold leftJoin
  rw [List.filter_flatMap]
  have hstep : ∀ x, (leftJoinRow x rs cond).filter (fun ab => key ab.1 == k)
      = if key x == k then leftJoinRow x rs cond else [] := fun x =>
    filter_fst_leftJoinRow x rs cond (fun y => key y == k)
  simp only [hstep]
  exact flatMap_if_key key ls a k _ hnd ha hk

theorem innerJoin_filter_fst_eq {α β : Type} (key : α → Int) (ls : List α) (rs : List β)
    (cond : α → β → Bool) (a : α) (k : Int)
    (hnd : (ls.map key).Nodup) (ha : a ∈ ls) (hk : key a = k) :
    (innerJoin ls rs cond).filter (fun ab => key ab.1 == k) =
      (rs.filter (cond a)).map (fun b => (a, b)) := by
  unfold innerJoin
  rw [List.filter_flatMap]
  have hstep : ∀ x, ((rs.filter (cond x)).map (fun b => (x, b))).filter
        (fun ab => key ab.1 == k)
      = if key x == k then (rs.filter (cond x)).map (fun b => (x, b)) else [] := fun x =>
    filter_fst_map_pair x (rs.filter (cond x)) (fun y => key y == k) (fun b => (x, b))
      (fun _ => rfl)
  simp only [hstep]
  exact flatMap_if_key key ls a k _ hnd ha hk

theorem orderByAsc_perm {α : Type} (key : α → Int) (l : List α) :
    (orderByAsc key l).Perm l :=
  List.perm_insertionSort _ l

theorem orderByAsc_sorted_le {α : Type} (key : α → Int) (l : List α) :
    (orderByAsc key l).Pairwise (fun a b => key a ≤ key b) := by
  haveI : IsTotal α (fun a b => key a ≤ key b) := ⟨fun a b => le_total (key a) (key b)⟩
  haveI : IsTrans α (fun a b => key a ≤ key b) := ⟨fun _ _ _ h1 h2 => le_trans h1 h2⟩
  exact List.sorted_insertionSort _ l

theorem orderByAsc_pairwise_lt {α : Type} (key : α → Int) (l : List α)
    (hnd : (l.map key).Nodup) :
    (orderByAsc key l).Pairwise (fun a b => key a < key b) := by
  have hle := orderByAsc_sorted_le key l
  have hnd2 : ((orderByAsc key l).map key).Nodup :=
    (((orderByAsc_perm key l).map key).nodup_iff).mpr hnd
  have hne : (orderByAsc key l).Pairwise (fun a b => key a ≠ key b) :=
    List.pairwise_map.mp hnd2
  exact (hle.and hne).imp (fun h => lt_of_le_of_ne h.1 h.2)

theorem eq_orderByAsc_of_perm_of_pairwise_lt {α : Type} (key : α → Int) (l full : List α)
    (hnd : (l.map key).Nodup) (hperm : full.Perm l)
    (hsort : full.Pairwise (fun a b => key a < key b)) :
    full = orderByAsc key l := by
  haveI : IsAntisymm α (fun a b => key a < key b) :=
    ⟨fun _ _ h1 h2 => absurd (lt_trans h1 h2) (lt_irrefl _)⟩
  exact List.eq_of_perm_of_sorted (hperm.trans (orderByAsc_perm key l).symm) hsort
    (orderByAsc_pairwise_lt key l hnd)

/-- The group of an order is the matched detail rows (as `some`s) or a single
null row when the order has no details. -/
theorem orderDetailGroup_eq (db : Db) (o : Order) :
    orderDetailGroup db o =
      (match db.order_details.filter (fun d => d.order_id == o.id) with
        | [] => [(none : Option OrderDetailRow)]
        | ds => ds.map some) := by
  unfold orderDetailGroup leftJoinRow
  cases h : db.order_details.filter (fun d => d.order_id == o.id) <;> simp [h]

/-- The aggregate columns of `aggRow`, written directly in terms of the
order's detail rows. -/
theorem aggRow_fields (db : Db) (o : Order) :
    (aggRow db o).products_count =
      (((db.order_details.filter (fun d => d.order_id == o.id)).length : Int)) ∧
    (aggRow db o).quantity_sum =
      (if db.order_details.filter (fun d => d.order_id == o.id) = [] then none
        else some ((db.order_details.filter (fun d => d.order_id == o.id)).map
          (fun d => d.quantity)).sum) ∧
    (aggRow db o).total_price =
      (if db.order_details.filter (fun d => d.order_id == o.id) = [] then none
        else some ((db.order_details.filter (fun d => d.order_id == o.id)).map
          (fun d => (d.quantity : ℚ) * d.unit_price)).sum) := by
  have hg := orderDetailGroup_eq db o
  cases h : db.order_details.filter (fun d => d.order_id == o.id) with
  | nil =>
      rw [h] at hg
      refine ⟨?_, ?_, ?_⟩ <;>
        simp [aggRow, hg, sqlCount, sqlSum]
  | cons d t =>
      rw [h] at hg
      refine ⟨?_, ?_, ?_⟩ <;>
        simp [aggRow, hg, sqlCount, sqlSum, List.filterMap_map, Function.comp]

theorem filter_key_eq_find_toList_of_nodup {α : Type} (key : α → Int) :
    ∀ (l : List α) (k : Int), (l.map key).Nodup →
      l.filter (fun x => key x == k) = (l.find? (fun x => key x == k)).toList
  | [], _, _ => rfl
  | b :: t, k, hnd => by
    rw [List.map_cons, List.nodup_cons] at hnd
    cases hb : (key b == k)
    · rw [List.filter_cons_of_neg (by simp [hb]), List.find?_cons_of_neg _ (by simp [hb])]
      exact filter_key_eq_find_toList_of_nodup key t k hnd.2
    · rw [List.filter_cons_of_pos (by simp [hb]), List.find?_cons_of_pos _ (by simp [hb])]
      have ht : t.filter (fun x => key x == k) = [] := by
        rw [List.filter_eq_nil_iff]
        intro x hx hkey
        refine hnd.1 ?_
        rw [beq_iff_eq.mp hb, ← beq_iff_eq.mp hkey]
        exact List.mem_map_of_mem key hx
      rw [ht]
      rfl

theorem flatMap_toList_eq_filterMap {α β : Type} (g : α → Option β) :
    ∀ l : List α, l.flatMap (fun a => (g a).toList) = l.filterMap g
  | [] => rfl
  | b :: t => by
    cases h : g b <;>
      simp [List.flatMap_cons, List.filterMap_cons, h,
        flatMap_toList_eq_filterMap g t]

/-- The p13 details query, characterized as one pass over `order_details`:
a detail contributes a joined row exactly when its order id matches and
`find?` locates its product; a detail whose product id resolves to no
product contributes nothing. -/
theorem p13Details_eq_filterMap (db : Db) (id_ : Int)
    (hndp : (db.products.map (fun p => p.id)).Nodup) :
    p13Details db id_ = db.order_details.filterMap (fun d =>
      if d.order_id == id_ then
        (db.products.find? (fun p => p.id == d.product_id)).map
          (fun p => mkOrderDetailWithProduct d p)
      else none) := by
  unfold p13Details innerJoin
  rw [List.filter_flatMap, List.map_flatMap]
  have hstep : ∀ d : OrderDetailRow,
      (List.map (fun dp => mkOrderDetailWithProduct dp.1 dp.2)
        (List.filter (fun dp => dp.1.order_id == id_)
          (List.map (fun b => (d, b))
            (List.filter ((fun dd p => p.id == dd.product_id) d) db.products))))
      = (if d.order_id == id_ then
            (db.products.find? (fun p => p.id == d.product_id)).map
              (fun p => mkOrderDetailWithProduct d p)
          else none).toList := by
    intro d
    rw [filter_fst_map_pair d (List.filter ((fun dd p => p.id == dd.product_id) d) db.products)
      (fun x => x.order_id == id_) (fun p => (d, p)) (fun _ => rfl)]
    cases hc : (d.order_id == id_)
    · simp [hc]
    · rw [if_pos rfl, if_pos rfl, List.map_map]
      rw [show List.filter ((fun dd p => p.id == dd.product_id) d) db.products
          = List.filter (fun p => (fun p => p.id) p == d.product_id) db.products from rfl]
      rw [filter_key_eq_find_toList_of_nodup (fun p => p.id) db.products d.product_id hndp]
      cases hf : db.products.find? (fun p => (fun p => p.id) p == d.product_id) <;> simp [hf]
  simp only [hstep]
  exact flatMap_toList_eq_filterMap _ db.order_details

/-! ### Claim theorems -/

/-- C2: for all limit ≥ 0 and offset ≥ 0, `list_customers` (p1) returns at
most `limit` rows, strictly ordered by ascending id, and those rows are
exactly rows [offset, offset+limit) of the full sequence of customers
sorted by ascending id. -/
theorem C2_list_customers_pagination (db : Db) (limit_ offset_ : Int)
    (hlim : 0 ≤ limit_) (hoff : 0 ≤ offset_)
    (hnd : (db.customers.map (fun c => c.id)).Nodup) :
    ((p1 db limit_ offset_).length : Int) ≤ limit_ ∧
    (p1 db limit_ offset_).Pairwise (fun a b => a.id < b.id) ∧
    ∀ full : List Customer, full.Perm db.customers →
      full.Pairwise (fun a b => a.id < b.id) →
      p1 db limit_ offset_ = (full.drop offset_.toNat).take limit_.toNat := by
  refine ⟨?_, ?_, ?_⟩
  · calc ((p1 db limit_ offset_).length : Int)
        ≤ (limit_.toNat : Int) := by
          exact_mod_cast List.length_take_le _ _
      _ = limit_ := Int.toNat_of_nonneg hlim
  · have hsort := orderByAsc_pairwise_lt (fun c => c.id) db.customers hnd
    have hsub : (p1 db limit_ offset_).Sublist (orderByAsc (fun c => c.id) db.customers) :=
      (List.take_sublist _ _).trans (List.drop_sublist _ _)
    exact List.Pairwise.sublist hsub hsort
  · intro full hperm hsort
    have : full = orderByAsc (fun c => c.id) db.customers :=
      eq_orderByAsc_of_perm_of_pairwise_lt (fun c => c.id) db.customers full hnd hperm hsort
    rw [this]
    rfl

/-- Witness for C2 on the example database: limit 2, offset 1 yields at most
2 rows, strictly ascending, and exactly the slice [1, 3) of the ascending
sequence [customer 1, customer 2, customer 3]. -/
theorem C2_list_customers_pagination_witness :
    ((p1 exDb 2 1).length : Int) ≤ 2 ∧
    (p1 exDb 2 1).Pairwise (fun a b => a.id < b.id) ∧
    p1 exDb 2 1 = [exCustomer2, exCustomer3] := by
  have h := C2_list_customers_pagination exDb 2 1 (by decide) (by decide) (by decide)
  refine ⟨h.1, h.2.1, ?_⟩
  rw [h.2.2 [exCustomer1, exCustomer2, exCustomer3] (by decide) (by decide)]
  decide

/-- C6: `customer_by_id` (p2) returns the unique customer row with the
given id when one exists, a successful absent result when none exists
(NotFound is never surfaced as an error), and — being built from
`first().optional()` — never more than one row. -/
theorem C6_customer_by_id (db : Db) (id_ : Int)
    (hnd : (db.customers.map (fun c => c.id)).Nodup) :
    (∀ c ∈ db.customers, c.id = id_ → p2 db id_ = .ok (some c)) ∧
    ((∀ c ∈ db.customers, c.id ≠ id_) → p2 db id_ = .ok none) ∧
    (∀ e : DieselError, p2 db id_ ≠ .error e) := by
  refine ⟨?_, ?_, ?_⟩
  · intro c hc hid
    unfold p2
    rw [filter_key_eq_of_nodup (fun c => c.id) db.customers c id_ hnd hc hid]
    rfl
  · intro hno
    unfold p2
    have h0 : db.customers.filter (fun c => c.id == id_) = [] := by
      rw [List.filter_eq_nil_iff]
      intro c hc
      simp [hno c hc]
    rw [h0]
    rfl
  · intro e
    unfold p2
    cases h : db.customers.filter (fun c => c.id == id_) <;>
      simp [firstRow, Diesel.optional]

/-- Witness for C6 on the example database: id 1 yields customer 1; id 99
yields a successful absent result. -/
theorem C6_customer_by_id_witness :
    p2 exDb 1 = .ok (some exCustomer1) ∧ p2 exDb 99 = .ok none := by
  refine ⟨?_, ?_⟩
  · exact (C6_customer_by_id exDb 1 (by decide)).1 exCustomer1 (by decide) (by decide)
  · exact (C6_customer_by_id exDb 99 (by decide)).2.1 (by decide)

/-- C1: the orders_with_details aggregates (p11 for the list, p12 for a
single id) report, for every order, products_count = the number of its
order_detail rows (0 when none), quantity_sum = the sum of their
quantities (null when none), and total_price = the sum of quantity ×
unit_price (null when none); every p11 row is such an aggregate of an
existing order. -/
theorem C1_order_aggregates (db : Db) (o : Order)
    (hnd : (db.orders.map (fun o => o.id)).Nodup) (ho : o ∈ db.orders) :
    p12 db o.id = .ok (some (aggRow db o)) ∧
    (∀ limit_ offset_ : Int, ∀ r ∈ p11 db limit_ offset_,
      ∃ o2 ∈ db.orders, r = aggRow db o2) ∧
    (aggRow db o).products_count =
      ((db.order_details.filter (fun d => d.order_id == o.id)).length : Int) ∧
    (aggRow db o).quantity_sum =
      (if db.order_details.filter (fun d => d.order_id == o.id) = [] then none
        else some ((db.order_details.filter (fun d => d.order_id == o.id)).map
          (fun d => d.quantity)).sum) ∧
    (aggRow db o).total_price =
      (if db.order_details.filter (fun d => d.order_id == o.id) = [] then none
        else some ((db.order_details.filter (fun d => d.order_id == o.id)).map
          (fun d => (d.quantity : ℚ) * d.unit_price)).sum) := by
  have hf := aggRow_fields db o
  refine ⟨?_, ?_, hf.1, hf.2.1, hf.2.2⟩
  · unfold p12
    rw [filter_key_eq_of_nodup (fun o => o.id) db.orders o o.id hnd ho rfl]
    rfl
  · intro limit_ offset_ r hr
    have hsub : (p11 db limit_ offset_).Sublist
        ((orderByAsc (fun o => o.id) db.orders).map (aggRow db)) :=
      (List.take_sublist _ _).trans (List.drop_sublist _ _)
    have hr2 : r ∈ (orderByAsc (fun o => o.id) db.orders).map (aggRow db) :=
      hsub.subset hr
    rcases List.mem_map.mp hr2 with ⟨o2, ho2, rfl⟩
    exact ⟨o2, (orderByAsc_perm (fun o => o.id) db.orders).subset ho2, rfl⟩

/-- Witness for C1 on the example database: order 1 with details
[{qty 2, price 10}, {qty 1, price 5}] yields products_count = 2,
quantity_sum = 3, total_price = 25, and p12 returns exactly that aggregate;
order 3 with no details yields products_count = 0 and absent sums. -/
theorem C1_order_aggregates_witness :
    (aggRow exDb exOrder1).products_count = 2 ∧
    (aggRow exDb exOrder1).quantity_sum = some 3 ∧
    (aggRow exDb exOrder1).total_price = some 25 ∧
    p12 exDb 1 = .ok (some (aggRow exDb exOrder1)) ∧
    (aggRow exDb exOrder3).products_count = 0 ∧
    (aggRow exDb exOrder3).quantity_sum = none ∧
    (aggRow exDb exOrder3).total_price = none := by
  have h1 := C1_order_aggregates exDb exOrder1 (by decide) (by decide)
  have h3 := C1_order_aggregates exDb exOrder3 (by decide) (by decide)
  refine ⟨?_, ?_, ?_, h1.1, ?_, ?_, ?_⟩
  · rw [h1.2.2.1]; decide
  · rw [h1.2.2.2.1]; decide
  · rw [h1.2.2.2.2]
    have hL : List.filter (fun d => d.order_id == exOrder1.id) exDb.order_details
        = [exDetail1, exDetail2] := by decide
    rw [hL, if_neg (by decide)]
    norm_num [exDetail1, exDetail2]
  · rw [h3.2.2.1]; decide
  · rw [h3.2.2.2.1]; decide
  · rw [h3.2.2.2.2]; decide

/-- C3: p13 first fetches the order row; when no order with the id exists
it returns a successful absent result and its trace contains only the
order fetch (the details query is never issued); when the order exists it
issues both queries and returns the order with its embedded details. -/
theorem C3_p13_two_step (db : Db) (id_ : Int)
    (hnd : (db.orders.map (fun o => o.id)).Nodup) :
    ((∀ o ∈ db.orders, o.id ≠ id_) →
      p13 db id_ = (.ok none, [DbQuery.fetchOrder id_])) ∧
    (∀ o ∈ db.orders, o.id = id_ →
      p13 db id_ = (.ok (some (mkOrderWithDetailsAndProducts o (p13Details db id_))),
        [DbQuery.fetchOrder id_, DbQuery.fetchDetails id_])) := by
  refine ⟨?_, ?_⟩
  · intro hno
    unfold p13
    have h0 : db.orders.filter (fun o => o.id == id_) = [] := by
      rw [List.filter_eq_nil_iff]
      intro o hoo
      simp [hno o hoo]
    rw [h0]
    rfl
  · intro o hoo hid
    unfold p13
    rw [filter_key_eq_of_nodup (fun o => o.id) db.orders o id_ hnd hoo hid]
    rfl

/-- Witness for C3 on the example database: id 99 matches no order, so
only the order fetch is issued and the result is a successful absence;
id 1 exists, so both queries run and the embedded details are returned. -/
theorem C3_p13_two_step_witness :
    p13 exDb 99 = (.ok none, [DbQuery.fetchOrder 99]) ∧
    p13 exDb 1 = (.ok (some (mkOrderWithDetailsAndProducts exOrder1 (p13Details exDb 1))),
      [DbQuery.fetchOrder 1, DbQuery.fetchDetails 1]) := by
  refine ⟨?_, ?_⟩
  · exact (C3_p13_two_step exDb 99 (by decide)).1 (by decide)
  · exact (C3_p13_two_step exDb 1 (by decide)).2 exOrder1 (by decide) (by decide)

/-- C4: `product_with_supplier` (p9) returns a successful absent result
when the product with the given id exists but its supplier_id resolves to
no supplier (inner-join semantics), and returns the joined
product-plus-supplier row when both exist. -/
theorem C4_product_with_supplier (db : Db) (id_ : Int)
    (hndp : (db.products.map (fun p => p.id)).Nodup) :
    (∀ p ∈ db.products, p.id = id_ → (∀ s ∈ db.suppliers, s.id ≠ p.supplier_id) →
      p9 db id_ = .ok none) ∧
    (∀ p ∈ db.products, p.id = id_ → ∀ s ∈ db.suppliers, s.id = p.supplier_id →
      (db.suppliers.map (fun s => s.id)).Nodup →
      p9 db id_ = .ok (some (mkProductWithSupplier p s))) := by
  refine ⟨?_, ?_⟩
  · intro p hp hid hno
    unfold p9
    rw [innerJoin_filter_fst_eq (fun p => p.id) db.products db.suppliers
      (fun p s => s.id == p.supplier_id) p id_ hndp hp hid]
    have h0 : db.suppliers.filter ((fun p s => s.id == p.supplier_id) p) = [] := by
      rw [List.filter_eq_nil_iff]
      intro s hs
      simp [hno s hs]
    rw [h0]
    rfl
  · intro p hp hid s hs hsid hnds
    unfold p9
    rw [innerJoin_filter_fst_eq (fun p => p.id) db.products db.suppliers
      (fun p s => s.id == p.supplier_id) p id_ hndp hp hid]
    rw [show db.suppliers.filter ((fun p s => s.id == p.supplier_id) p)
        = db.suppliers.filter (fun s => (fun s => s.id) s == p.supplier_id) from rfl]
    rw [filter_key_eq_of_nodup (fun s => s.id) db.suppliers s p.supplier_id hnds hs hsid]
    rfl

/-- Witness for C4 on the example database: product 2 exists but its
supplier 99 does not, so p9 is absent; product 1 and supplier 1 both exist,
so p9 returns the joined row. -/
theorem C4_product_with_supplier_witness :
    p9 exDb 2 = .ok none ∧
    p9 exDb 1 = .ok (some (mkProductWithSupplier exProduct1 exSupplier1)) := by
  refine ⟨?_, ?_⟩
  · exact (C4_product_with_supplier exDb 2 (by decide)).1 exProduct2 (by decide) (by decide)
      (by decide)
  · exact (C4_product_with_supplier exDb 1 (by decide)).2 exProduct1 (by decide) (by decide)
      exSupplier1 (by decide) (by decide) (by decide)

/-- C5: `employee_with_recipient` (p5) — which returns at most one row by
construction (`first().optional()`) — yields, for an employee whose
recipient_id is null, a row whose recipient_* columns are all absent, and,
for an employee whose recipient_id references an existing employee, a row
whose recipient_* columns carry that employee's values. -/
theorem C5_employee_with_recipient (db : Db) (id_ : Int)
    (hnd : (db.employees.map (fun e => e.id)).Nodup) :
    (∀ e ∈ db.employees, e.id = id_ → e.recipient_id = none →
      p5 db id_ = .ok (some (mkEmployeeWithRecipient e none)) ∧
      (mkEmployeeWithRecipient e none).recipient_employee_id = none ∧
      (mkEmployeeWithRecipient e none).recipient_last_name = none ∧
      (mkEmployeeWithRecipient e none).recipient_first_name = none ∧
      (mkEmployeeWithRecipient e none).recipient_title = none ∧
      (mkEmployeeWithRecipient e none).recipient_title_of_courtesy = none ∧
      (mkEmployeeWithRecipient e none).recipient_birth_date = none ∧
      (mkEmployeeWithRecipient e none).recipient_hire_date = none ∧
      (mkEmployeeWithRecipient e none).recipient_address = none ∧
      (mkEmployeeWithRecipient e none).recipient_city = none ∧
      (mkEmployeeWithRecipient e none).recipient_postal_code = none ∧
      (mkEmployeeWithRecipient e none).recipient_country = none ∧
      (mkEmployeeWithRecipient e none).recipient_home_phone = none ∧
      (mkEmployeeWithRecipient e none).recipient_extension = none ∧
      (mkEmployeeWithRecipient e none).recipient_notes = none ∧
      (mkEmployeeWithRecipient e none).recipient_recipient_id = none) ∧
    (∀ e ∈ db.employees, e.id = id_ → ∀ rid, e.recipient_id = some rid →
      ∀ r ∈ db.employees, r.id = rid →
      p5 db id_ = .ok (some (mkEmployeeWithRecipient e (some r)))) := by
  refine ⟨?_, ?_⟩
  · intro e he hid hrec
    refine ⟨?_, rfl, rfl, rfl, rfl, rfl, rfl, rfl, rfl, rfl, rfl, rfl, rfl, rfl, rfl, rfl⟩
    unfold p5
    rw [leftJoin_filter_fst_eq (fun e => e.id) db.employees db.employees
      (fun e r => e.recipient_id == some r.id) e id_ hnd he hid]
    unfold leftJoinRow
    have h0 : db.employees.filter ((fun e r => e.recipient_id == some r.id) e) = [] := by
      rw [List.filter_eq_nil_iff]
      intro r _
      show ¬(e.recipient_id == some r.id) = true
      rw [hrec]
      simp
    rw [h0]
    rfl
  · intro e he hid rid hrec r hr hrid
    unfold p5
    rw [leftJoin_filter_fst_eq (fun e => e.id) db.employees db.employees
      (fun e r => e.recipient_id == some r.id) e id_ hnd he hid]
    unfold leftJoinRow
    have h1 : db.employees.filter ((fun e r => e.recipient_id == some r.id) e)
        = db.employees.filter (fun x => (fun r => r.id) x == rid) := by
      refine List.filter_congr ?_
      intro x _
      show (e.recipient_id == some x.id) = (x.id == rid)
      rw [hrec]
      show (Option.some rid == some x.id) = (x.id == rid)
      by_cases hx : x.id = rid
      · rw [hx]
        simp
      · rw [beq_eq_false_iff_ne.mpr (fun hc : some rid = some x.id =>
          hx (Option.some.inj hc).symm)]
        rw [beq_eq_false_iff_ne.mpr hx]
    rw [h1, filter_key_eq_of_nodup (fun r => r.id) db.employees r rid hnd hr hrid]
    rfl

/-- Witness for C5 on the example database: employee 1 has a null
recipient_id, so all recipient columns are absent; employee 2's
recipient_id references employee 1, whose values populate the recipient
columns. -/
theorem C5_employee_with_recipient_witness :
    p5 exDb 1 = .ok (some (mkEmployeeWithRecipient exEmployee1 none)) ∧
    (mkEmployeeWithRecipient exEmployee1 none).recipient_last_name = none ∧
    p5 exDb 2 = .ok (some (mkEmployeeWithRecipient exEmployee2 (some exEmployee1))) ∧
    (mkEmployeeWithRecipient exEmployee2 (some exEmployee1)).recipient_last_name
      = some "li" := by
  have h := C5_employee_with_recipient exDb 1 (by decide)
  have h2 := C5_employee_with_recipient exDb 2 (by decide)
  refine ⟨(h.1 exEmployee1 (by decide) (by decide) (by decide)).1,
    (h.1 exEmployee1 (by decide) (by decide) (by decide)).2.2.1, ?_, by decide⟩
  exact h2.2 exEmployee2 (by decide) (by decide) 1 (by decide) exEmployee1 (by decide)
    (by decide)

/-- C10: the embedded details list of p13 contains only order_detail rows
whose product_id resolves to an existing product: the list is a single
filterMap pass in which a detail with no matching product contributes
nothing, every returned row carries an existing product's columns, and a
detail referencing a missing product yields no row at all. -/
theorem C10_p13_details_inner_join (db : Db) (id_ : Int)
    (hndp : (db.products.map (fun p => p.id)).Nodup) :
    p13Details db id_ = db.order_details.filterMap (fun d =>
      if d.order_id == id_ then
        (db.products.find? (fun p => p.id == d.product_id)).map
          (fun p => mkOrderDetailWithProduct d p)
      else none) ∧
    (∀ r ∈ p13Details db id_, ∃ p ∈ db.products,
      p.id = r.product_id ∧ r.product_product_id = p.id ∧ r.product_name = p.name) ∧
    ((db.order_details.map (fun d => d.id)).Nodup →
      ∀ d ∈ db.order_details, (∀ p ∈ db.products, p.id ≠ d.product_id) →
      ∀ r ∈ p13Details db id_, r.id ≠ d.id) := by
  have hchar := p13Details_eq_filterMap db id_ hndp
  have hmem : ∀ r ∈ p13Details db id_, ∃ d ∈ db.order_details, ∃ p,
      db.products.find? (fun p => p.id == d.product_id) = some p ∧
      r = mkOrderDetailWithProduct d p := by
    intro r hr
    rw [hchar] at hr
    rcases List.mem_filterMap.mp hr with ⟨d, hd, hg⟩
    refine ⟨d, hd, ?_⟩
    cases hc : (d.order_id == id_) with
    | false => rw [if_neg (by simp [hc])] at hg; cases hg
    | true =>
        rw [if_pos (by simp [hc])] at hg
        cases hf : db.products.find? (fun p => p.id == d.product_id) with
        | none => rw [hf] at hg; cases hg
        | some p =>
            rw [hf] at hg
            exact ⟨p, rfl, (Option.some.inj hg).symm⟩
  refine ⟨hchar, ?_, ?_⟩
  · intro r hr
    rcases hmem r hr with ⟨d, _, p, hf, rfl⟩
    have hps := List.find?_some hf
    exact ⟨p, List.mem_of_find?_eq_some hf, beq_iff_eq.mp hps, rfl, rfl⟩
  · intro hndd d hd hnop r hr
    rcases hmem r hr with ⟨d2, hd2, p, hf, rfl⟩
    intro hid
    have hdd : d2 = d :=
      List.inj_on_of_nodup_map hndd hd2 hd hid
    subst hdd
    have hps := List.find?_some hf
    exact hnop p (List.mem_of_find?_eq_some hf) (beq_iff_eq.mp hps)

/-- Witness for C10 on the example database: order 2's only detail
references the missing product 99, so p13's details list for order 2 is
empty; order 1's two details both resolve, each enriched with its
product. -/
theorem C10_p13_details_inner_join_witness :
    p13Details exDb 2 = [] ∧
    p13Details exDb 1 = [mkOrderDetailWithProduct exDetail1 exProduct1,
      mkOrderDetailWithProduct exDetail2 exProduct2] := by
  have h2 := (C10_p13_details_inner_join exDb 2 (by decide)).1
  have h1 := (C10_p13_details_inner_join exDb 1 (by decide)).1
  refine ⟨?_, ?_⟩
  · rw [h2]; decide
  · rw [h1]; decide

/-- C8 counterexample: the pool construction site of `establish_async_pool`
does not configure all five lifecycle parameters — it never calls the
idle-timeout or max-lifetime setters. -/
theorem C8_pool_params_counterexample :
    ¬ configuresAllFive establish_async_pool_config := by
  intro h
  exact absurd h.2.2.2.1 (by decide)

/-- C8 (amended): the pool is constructed with exactly three lifecycle
parameters configured — max_size = 128, min_idle = 16 and the acquire
timeout (`connection_timeout`) = 5 s; idle_timeout and max_lifetime are
left unset, at the pool library's defaults. -/
theorem C8_pool_params_amended :
    establish_async_pool_config.max_size = some 128 ∧
    establish_async_pool_config.min_idle = some 16 ∧
    establish_async_pool_config.connection_timeout_ms = some 5000 ∧
    establish_async_pool_config.idle_timeout_ms = none ∧
    establish_async_pool_config.max_lifetime_ms = none := by
  refine ⟨rfl, rfl, rfl, rfl, rfl⟩

theorem runStats_warmed (m : Nat) : runStats m true = List.replicate m false := by
  induction m with
  | zero => rfl
  | succ k ih => simp [runStats, stats_check_warmup, ih, List.replicate_succ]

/-- C9: starting from the initial unset flag, the first handler call (in
any serialization of concurrent callers — the check-and-set on the flag is
one atomic mutex-guarded step) observes the flag unset, sets it, and is
the only call that performs the warm-up; its action sequence is an extra
sampling pass and a 200 ms settle delay before the returned reading, while
every later call samples immediately. -/
theorem C9_stats_warmup_once (n : Nat) (h : 1 ≤ n) :
    runStats n false = true :: List.replicate (n - 1) false ∧
    (runStats n false).count true = 1 ∧
    stats_actions true = [StatsAction.refreshCpu, StatsAction.sleepMs 200,
      StatsAction.refreshCpu, StatsAction.readCpus] ∧
    stats_actions false = [StatsAction.refreshCpu, StatsAction.readCpus] := by
  obtain ⟨k, rfl⟩ : ∃ k, n = k + 1 := ⟨n - 1, (Nat.succ_pred_eq_of_pos h).symm⟩
  have h1 : runStats (k + 1) false = true :: List.replicate k false := by
    simp [runStats, stats_check_warmup, runStats_warmed]
  refine ⟨by simpa using h1, ?_, rfl, rfl⟩
  rw [h1]
  simp [List.count_cons, List.count_replicate]

/-- Witness for C9 at three calls: the outcomes are [true, false, false]
and exactly one caller warms up. -/
theorem C9_stats_warmup_once_witness :
    runStats 3 false = [true, false, false] ∧ (runStats 3 false).count true = 1 := by
  have h := C9_stats_warmup_once 3 (by decide)
  refine ⟨?_, h.2.1⟩
  rw [h.1]
  decide
